import Mathlib

/-!
Shallow embedding of `src/subscriber_server.py` (the ZeroVirus subscriber
HTTP service): the subscriber store (`load_subscribers` / `save_subscribers`)
and the request handler (`SubscribeHandler.do_POST`), together with the
Python-level string/integer helpers the handler relies on
(`str.strip`, `int(...)`, `str(...)` coercion, dict `get`, `parse_qs` lookup).

File contents and request bodies are modelled by their JSON parse outcome:
Python's `json.loads` either raises `JSONDecodeError` or returns a value, so
a text is represented by `absent`, `invalid` (parse raises) or `json v`.
The SMTP network interaction of `send_welcome_email` is external
nondeterminism and is modelled by an oracle `MailOutcome` saying whether the
`try` block around the send raises.
-/

namespace SubscriberServer

/-- Python/JSON values, as returned by `json.loads`.
Only integer JSON numbers are modelled (no claim involves float literals). -/
inductive JsonValue where
  | null
  | bool (b : Bool)
  | num (n : Int)
  | str (s : String)
  | arr (xs : List JsonValue)
  | obj (fields : List (String × JsonValue))

/-- A single-quote character, used by Python `repr` of strings. -/
def sq : String := String.singleton (Char.ofNat 39)

mutual

/-- Python `repr` of a JSON-shaped value (escaping inside strings omitted;
no claim exercises it). `str(x)` for a non-`str` `x` agrees with `repr(x)`
on these types. -/
def pyRepr : JsonValue → String
  | .null => "None"
  | .bool b => if b then "True" else "False"
  | .num n => toString n
  | .str s => sq ++ s ++ sq
  | .arr xs => "[" ++ pyReprItems xs ++ "]"
  | .obj fs => "\x7b" ++ pyReprFields fs ++ "\x7d"

def pyReprItems : List JsonValue → String
  | [] => ""
  | [v] => pyRepr v
  | v :: rest => pyRepr v ++ ", " ++ pyReprItems rest

def pyReprFields : List (String × JsonValue) → String
  | [] => ""
  | [(k, v)] => sq ++ k ++ sq ++ ": " ++ pyRepr v
  | (k, v) :: rest => sq ++ k ++ sq ++ ": " ++ pyRepr v ++ ", " ++ pyReprFields rest

end

/-- Python `str(x)`: the identity on strings, `repr` on the other
JSON-shaped values (`str(5) = "5"`, `str(True) = "True"`, `str(None) = "None"`,
`str` of a list/dict is its `repr`). -/
def pyStr : JsonValue → String
  | .str s => s
  | v => pyRepr v

/-- The characters Python's `str.strip()` removes: code points for which
`Py_UNICODE_ISSPACE` holds. -/
def isPySpace (c : Char) : Bool :=
  ([9, 10, 11, 12, 13, 28, 29, 30, 31, 32, 133, 160, 5760,
    8192, 8193, 8194, 8195, 8196, 8197, 8198, 8199, 8200, 8201, 8202,
    8232, 8233, 8239, 8287, 12288] : List Nat).contains c.toNat

/-- Python `s.strip()`: drop leading and trailing whitespace. -/
def pyStrip (s : String) : String :=
  ⟨((s.toList.dropWhile isPySpace).reverse.dropWhile isPySpace).reverse⟩

/-- Digit string to number, most significant digit first. -/
def digitsToNat (cs : List Char) : Nat :=
  cs.foldl (fun a c => a * 10 + (c.toNat - 48)) 0

/-- Python `int(s)` on a string: strip whitespace, optional sign, decimal
digits; anything else raises `ValueError`, modelled as `none`.
(Underscore separators and non-ASCII digits are not modelled.) -/
def pyInt (s : String) : Option Int :=
  match (pyStrip s).toList with
  | [] => none
  | c :: rest =>
    if c = Char.ofNat 45 then
      if rest ≠ [] ∧ rest.all Char.isDigit then some (-(digitsToNat rest : Int)) else none
    else if c = Char.ofNat 43 then
      if rest ≠ [] ∧ rest.all Char.isDigit then some ((digitsToNat rest : Int)) else none
    else if (c :: rest).all Char.isDigit then some ((digitsToNat (c :: rest) : Int)) else none

/-- State of the backing store file, represented by its JSON parse outcome:
`absent` (the path does not exist), `invalid` (text on which `json.loads`
raises `JSONDecodeError`), or `json v` (text parsing to `v`). -/
inductive FileContent where
  | absent
  | invalid
  | json (v : JsonValue)

/-- `load_subscribers(path)`: missing file → `[]`; `JSONDecodeError` → `[]`;
a parsed list is returned as is (whatever its elements); any other parsed
value → `[]`. -/
def load_subscribers : FileContent → List JsonValue
  | .absent => []
  | .invalid => []
  | .json (.arr xs) => xs
  | .json _ => []

/-- Python `sorted(set(l))` for a list of strings: the distinct elements in
lexicographic (code-point) order. -/
def pySortedSet (l : List String) : List String :=
  l.dedup.insertionSort (· ≤ ·)

/-- Python exceptions that can escape the modelled code paths. -/
inductive PyError where
  | valueError
  | unicodeDecodeError
  | attributeError
  | typeError

/-- Returns `some` of the underlying strings when every element of the list
is a JSON string, `none` otherwise. -/
def allStrings : List JsonValue → Option (List String)
  | [] => some []
  | .str s :: rest => (allStrings rest).map (s :: ·)
  | _ :: _ => none

/-- `save_subscribers(path, emails)`: writes `json.dumps(sorted(set(emails)))`.
`sorted` on a list mixing strings with other values raises `TypeError`
(and `set` raises it on unhashable elements); the all-string case — the only
one reachable from `do_POST`, which always includes the posted email string —
succeeds and is modelled exactly. -/
def save_subscribers (emails : List JsonValue) : Except PyError FileContent :=
  match allStrings emails with
  | some strs => .ok (.json (.arr ((pySortedSet strs).map .str)))
  | none => .error .typeError

/-- Whether the `try` body around `send_welcome_email` raises: the SMTP
round trip (connect, STARTTLS, login, send) is external nondeterminism,
modelled as an oracle. -/
inductive MailOutcome where
  | sent
  | raised

/-- The `smtp_config` dict built in `main` (always fully populated there). -/
structure SmtpConfig where
  host : String
  port : Int
  user : String
  password : String
  fromAddr : String
  subject : String
  body : String

/-- Server configuration wired onto the `HTTPServer` object in `main`:
`token` (empty string means no auth, matching `if token_required:`) and
`smtp_config` (`none` means mail disabled). -/
structure Config where
  token : String
  smtpConfig : Option SmtpConfig

/-- The request body bytes, by their decode/parse outcome: `empty` is `b""`,
`undecodable` raises `UnicodeDecodeError` in `.decode("utf-8")`,
`unparsable` decodes but makes `json.loads` raise `JSONDecodeError`,
`json v` decodes and parses to `v`. -/
inductive RawBody where
  | empty
  | undecodable
  | unparsable
  | json (v : JsonValue)

/-- An incoming POST request as `do_POST` observes it: the URL path component
and the `parse_qs` view of the query string (from `urlparse(self.path)`),
the `X-Auth-Token` and `Content-Length` headers (`none` when absent), and
the body bytes `rfile.read(length)` would yield. -/
structure Request where
  path : String
  query : List (String × List String)
  xAuthToken : Option String
  contentLength : Option String
  body : RawBody

/-- `(qs.get("token") or [""])[0]` on the `parse_qs` dict: first value of the
`token` parameter, `""` when missing (or when the value list is empty,
which `parse_qs` never produces but `or [""]` would also catch). -/
def queryToken (qs : List (String × List String)) : String :=
  match qs.find? (fun p => p.1 == "token") with
  | none => ""
  | some (_, []) => ""
  | some (_, v :: _) => v

/-- The token value the auth check compares (lines 62–65): the
`X-Auth-Token` header with default `""`; when that is falsy (absent or
empty) the `token` query parameter. -/
def effectiveToken (req : Request) : String :=
  let token := req.xAuthToken.getD ""
  if token = "" then queryToken req.query else token

/-- Outcome of lines 70–76: `int(...)` of a malformed `Content-Length`
raises `ValueError`; a zero length (or empty read) gives payload `{}`;
undecodable bytes raise `UnicodeDecodeError`; `JSONDecodeError` is caught
(`badJson`, answered with 400); otherwise the parsed payload. -/
inductive PayloadOutcome where
  | raised (e : PyError)
  | badJson
  | ok (v : JsonValue)

def readPayload (req : Request) : PayloadOutcome :=
  match pyInt (req.contentLength.getD "0") with
  | none => .raised .valueError
  | some length =>
    if length = 0 then .ok (.obj [])
    else
      match req.body with
      | .empty => .ok (.obj [])
      | .undecodable => .raised .unicodeDecodeError
      | .unparsable => .badJson
      | .json v => .ok v

/-- Python dict lookup for the dict `json.loads` builds from a JSON object:
a repeated key keeps the last occurrence. -/
def dictGet (fs : List (String × JsonValue)) (k : String) : Option JsonValue :=
  (fs.reverse.find? (fun p => p.1 == k)).map (·.2)

/-- Line 78, `str(payload.get("email", "")).strip()`: raises
`AttributeError` when the payload is not a dict (`.get` on a list, number,
string, bool or `None`). -/
def extractEmail : JsonValue → Except PyError String
  | .obj fs => .ok (pyStrip (pyStr ((dictGet fs "email").getD (.str ""))))
  | _ => .error .attributeError

/-- Python `c in s` for a one-character needle `c`: the string contains the
character. -/
def pyHasChar (s : String) (c : Char) : Bool :=
  s.toList.contains c

/-- Python `==` between a JSON-shaped value and the string `s`: only a
`str` with the same content compares equal. -/
def pyEqStr (v : JsonValue) (s : String) : Bool :=
  match v with
  | .str t => t == s
  | _ => false

/-- `email in emails` for a string `email` and the loaded list. -/
def containsStr (emails : List JsonValue) (email : String) : Bool :=
  emails.any (fun v => pyEqStr v email)

/-- How many elements of the stored JSON array equal the string `e`
(0 when the file is absent, unparseable, or not an array). -/
def storeCount (fc : FileContent) (e : String) : Nat :=
  match fc with
  | .json (.arr xs) => xs.countP (fun v => pyEqStr v e)
  | _ => 0

/-- A response body: `send_error` produces the handler's default HTML error
page (built from `error_message_format`); the success path writes a JSON
document. -/
inductive RespBody where
  | htmlError (code : Nat) (message : String)
  | jsonBody (v : JsonValue)

structure Response where
  status : Nat
  contentType : String
  body : RespBody

/-- `self.send_error(code, message)`: status `code`, content type
`text/html;charset=utf-8`, HTML error page as body. -/
def sendError (code : Nat) (message : String) : Response :=
  ⟨code, "text/html;charset=utf-8", .htmlError code message⟩

/-- Lines 89–105: `welcome_sent` is true only when `smtp_config` is set and
the send did not raise. -/
def welcomeSent (cfg : Config) (mail : MailOutcome) : Bool :=
  match cfg.smtpConfig, mail with
  | some _, .sent => true
  | _, _ => false

/-- Lines 107–114: the 200 response with JSON body
`{"status": "ok", "email": email, "welcome_sent": welcome_sent}`. -/
def okResponse (cfg : Config) (mail : MailOutcome) (email : String) : Response :=
  ⟨200, "application/json",
    .jsonBody (.obj [("status", .str "ok"), ("email", .str email),
      ("welcome_sent", .bool (welcomeSent cfg mail))])⟩

/-- What `do_POST` did to the connection: a completed response, or an
uncaught Python exception escaping the handler (the surrounding
`socketserver` machinery then logs it; no response is sent). -/
inductive Outcome where
  | resp (r : Response)
  | raised (e : PyError)

/-- Which store-file operations the handler performed. -/
structure Effects where
  readStore : Bool
  wroteStore : Bool

def noEffects : Effects := ⟨false, false⟩

/-- `SubscribeHandler.do_POST` (lines 54–114), returning the connection
outcome, the resulting store-file state, and the store accesses performed:
route check (404), optional token check (403), body read/parse
(`ValueError` / `UnicodeDecodeError` propagate, `JSONDecodeError` → 400),
email extraction (`AttributeError` on non-dict payload) and validation
(400), load + conditional append/save, best-effort mail, 200 JSON reply. -/
def do_POST (cfg : Config) (mail : MailOutcome) (store : FileContent)
    (req : Request) : Outcome × FileContent × Effects :=
  if req.path ≠ "/subscribe" then
    (.resp (sendError 404 "Not Found"), store, noEffects)
  else if cfg.token ≠ "" ∧ effectiveToken req ≠ cfg.token then
    (.resp (sendError 403 "Forbidden"), store, noEffects)
  else
    match readPayload req with
    | .raised e => (.raised e, store, noEffects)
    | .badJson => (.resp (sendError 400 "Invalid JSON"), store, noEffects)
    | .ok payload =>
      match extractEmail payload with
      | .error e => (.raised e, store, noEffects)
      | .ok email =>
        if ¬pyHasChar email (Char.ofNat 64) ∨ ¬pyHasChar email (Char.ofNat 46) then
          (.resp (sendError 400 "Invalid email"), store, noEffects)
        else
          let emails := load_subscribers store
          if containsStr emails email then
            (.resp (okResponse cfg mail email), store, ⟨true, false⟩)
          else
            match save_subscribers (emails ++ [.str email]) with
            | .error e => (.raised e, store, ⟨true, false⟩)
            | .ok newStore =>
              (.resp (okResponse cfg mail email), newStore, ⟨true, true⟩)

/-- A canonical well-formed subscribe request: path `/subscribe`, the
configured token supplied in the `X-Auth-Token` header, a nonzero
`Content-Length`, body `{"email": E}`. -/
def subscribeReq (tok : String) (E : String) : Request :=
  { path := "/subscribe", query := [], xAuthToken := some tok,
    contentLength := some "1", body := .json (.obj [("email", .str E)]) }

/-! ### Helper lemmas -/

theorem allStrings_map_str (L : List String) :
    allStrings (L.map JsonValue.str) = some L := by
  induction L with
  | nil => rfl
  | cons a t ih => simp [allStrings, ih]

theorem allStrings_append_str {l : List JsonValue} {strs : List String}
    (h : allStrings l = some strs) (e : String) :
    allStrings (l ++ [JsonValue.str e]) = some (strs ++ [e]) := by
  induction l generalizing strs with
  | nil =>
    simp [allStrings] at h
    subst h
    simp [allStrings]
  | cons v rest ih =>
    cases v with
    | str s =>
      simp only [allStrings, Option.map_eq_some'] at h
      obtain ⟨ts, hts, rfl⟩ := h
      simp [allStrings, ih hts]
    | null => simp [allStrings] at h
    | bool b => simp [allStrings] at h
    | num n => simp [allStrings] at h
    | arr xs => simp [allStrings] at h
    | obj fs => simp [allStrings] at h

theorem containsStr_iff_mem {l : List JsonValue} {strs : List String}
    (h : allStrings l = some strs) (e : String) :
    containsStr l e = true ↔ e ∈ strs := by
  induction l generalizing strs with
  | nil =>
    simp [allStrings] at h
    subst h
    simp [containsStr]
  | cons v rest ih =>
    cases v with
    | str s =>
      simp only [allStrings, Option.map_eq_some'] at h
      obtain ⟨ts, hts, rfl⟩ := h
      have h2 := ih hts
      constructor
      · intro hc
        rcases (by simpa [containsStr, pyEqStr] using hc :
            s = e ∨ containsStr rest e = true) with rfl | hr
        · exact List.mem_cons_self _ _
        · exact List.mem_cons_of_mem _ (h2.mp hr)
      · intro hm
        rcases List.mem_cons.mp hm with rfl | hm
        · simp [containsStr, pyEqStr]
        · have hr := h2.mpr hm
          simp only [containsStr, List.any_cons, Bool.or_eq_true]
          exact Or.inr (by simpa [containsStr] using hr)
    | null => simp [allStrings] at h
    | bool b => simp [allStrings] at h
    | num n => simp [allStrings] at h
    | arr xs => simp [allStrings] at h
    | obj fs => simp [allStrings] at h

theorem mem_pySortedSet {a : String} {l : List String} :
    a ∈ pySortedSet l ↔ a ∈ l := by
  unfold pySortedSet
  rw [List.mem_insertionSort, List.mem_dedup]

theorem nodup_pySortedSet (l : List String) : (pySortedSet l).Nodup :=
  (List.perm_insertionSort _ _).nodup_iff.mpr (List.nodup_dedup l)

theorem sorted_pySortedSet (l : List String) :
    (pySortedSet l).Sorted (· ≤ ·) :=
  List.sorted_insertionSort _ _

theorem countP_map_str (L : List String) (e : String) :
    (L.map JsonValue.str).countP (fun v => pyEqStr v e) = L.count e := by
  rw [List.countP_map]
  rfl

theorem storeCount_save {L : List String} {e : String} (h : e ∈ L) :
    storeCount (.json (.arr ((pySortedSet L).map .str))) e = 1 := by
  show (List.map JsonValue.str (pySortedSet L)).countP (fun v => pyEqStr v e) = 1
  rw [countP_map_str]
  exact List.count_eq_one_of_mem (nodup_pySortedSet L) (mem_pySortedSet.mpr h)

theorem countP_allStrings {l : List JsonValue} {strs : List String}
    (h : allStrings l = some strs) (e : String) :
    l.countP (fun v => pyEqStr v e) = strs.count e := by
  induction l generalizing strs with
  | nil =>
    simp [allStrings] at h
    subst h
    rfl
  | cons v rest ih =>
    cases v with
    | str s =>
      simp only [allStrings, Option.map_eq_some'] at h
      obtain ⟨ts, hts, rfl⟩ := h
      by_cases hse : s = e
      · subst hse
        rw [List.countP_cons_of_pos _ _ (by simp [pyEqStr]),
          List.count_cons_self, ih hts]
      · rw [List.countP_cons_of_neg _ _ (by simp [pyEqStr, hse]),
          List.count_cons_of_ne (Ne.symm hse), ih hts]
    | null => simp [allStrings] at h
    | bool b => simp [allStrings] at h
    | num n => simp [allStrings] at h
    | arr xs => simp [allStrings] at h
    | obj fs => simp [allStrings] at h

/-- The happy path of `do_POST`: route, auth, parse and validation all pass
and the store is a well-formed list of strings; the handler answers 200 and
either leaves the store alone (known email) or appends and rewrites it. -/
theorem do_POST_success (cfg : Config) (mail : MailOutcome) (store : FileContent)
    (req : Request) (payload : JsonValue) (email : String) (strs : List String)
    (hpath : req.path = "/subscribe")
    (hauth : cfg.token ≠ "" → effectiveToken req = cfg.token)
    (hpay : readPayload req = .ok payload)
    (hext : extractEmail payload = .ok email)
    (hat : pyHasChar email (Char.ofNat 64) = true)
    (hdot : pyHasChar email (Char.ofNat 46) = true)
    (hstore : allStrings (load_subscribers store) = some strs) :
    do_POST cfg mail store req =
      if email ∈ strs then
        (.resp (okResponse cfg mail email), store, ⟨true, false⟩)
      else
        (.resp (okResponse cfg mail email),
          .json (.arr ((pySortedSet (strs ++ [email])).map .str)), ⟨true, true⟩) := by
  unfold do_POST
  rw [if_neg (by simp [hpath])]
  rw [if_neg (by
    intro hc
    exact hc.2 (hauth hc.1))]
  rw [hpay]
  dsimp only
  rw [hext]
  dsimp only
  rw [if_neg (by simp [hat, hdot])]
  by_cases hmem : email ∈ strs
  · rw [if_pos ((containsStr_iff_mem hstore email).mpr hmem), if_pos hmem]
  · rw [if_neg (by
      intro hc
      exact hmem ((containsStr_iff_mem hstore email).mp hc)), if_neg hmem]
    rw [show save_subscribers (load_subscribers store ++ [JsonValue.str email]) =
      .ok (.json (.arr ((pySortedSet (strs ++ [email])).map .str))) by
        unfold save_subscribers
        rw [allStrings_append_str hstore email]]

/-- In a well-formed store without duplicate entries, a present email is
stored exactly once. -/
theorem storeCount_wf_mem {store : FileContent} {strs : List String} {e : String}
    (h : allStrings (load_subscribers store) = some strs)
    (hmem : e ∈ strs) (hnd : strs.Nodup) : storeCount store e = 1 := by
  cases store with
  | absent =>
    simp [load_subscribers, allStrings] at h
    subst h
    cases hmem
  | invalid =>
    simp [load_subscribers, allStrings] at h
    subst h
    cases hmem
  | json v =>
    cases v with
    | arr xs =>
      have : storeCount (.json (.arr xs)) e = xs.countP (fun w => pyEqStr w e) := rfl
      rw [this, countP_allStrings (by simpa [load_subscribers] using h) e]
      exact List.count_eq_one_of_mem hnd hmem
    | null =>
      simp [load_subscribers, allStrings] at h
      subst h
      cases hmem
    | bool b =>
      simp [load_subscribers, allStrings] at h
      subst h
      cases hmem
    | num n =>
      simp [load_subscribers, allStrings] at h
      subst h
      cases hmem
    | str s =>
      simp [load_subscribers, allStrings] at h
      subst h
      cases hmem
    | obj fs =>
      simp [load_subscribers, allStrings] at h
      subst h
      cases hmem

/-- The mail oracle influences only the response body (`welcome_sent`),
never the resulting store state or the store accesses. -/
theorem mail_frame (cfg : Config) (m1 m2 : MailOutcome) (store : FileContent)
    (req : Request) :
    (do_POST cfg m1 store req).2 = (do_POST cfg m2 store req).2 := by
  unfold do_POST
  by_cases h1 : req.path ≠ "/subscribe"
  · simp only [if_pos h1]
  · simp only [if_neg h1]
    by_cases h2 : cfg.token ≠ "" ∧ effectiveToken req ≠ cfg.token
    · simp only [if_pos h2]
    · simp only [if_neg h2]
      cases hp : readPayload req with
      | raised e => rfl
      | badJson => rfl
      | ok payload =>
        dsimp only
        cases he : extractEmail payload with
        | error e => rfl
        | ok email =>
          dsimp only
          by_cases hv : ¬pyHasChar email (Char.ofNat 64) = true ∨
              ¬pyHasChar email (Char.ofNat 46) = true
          · simp only [if_pos hv]
          · simp only [if_neg hv]
            by_cases hm : containsStr (load_subscribers store) email = true
            · simp only [if_pos hm]
            · simp only [if_neg hm]
              cases hs : save_subscribers (load_subscribers store ++ [.str email]) with
              | error e => rfl
              | ok newStore => rfl

/-- Exhaustive classification of what `do_POST` can do: a 404 on a wrong
path, a 403 on a failed token check, a 400 for bad JSON or a bad email,
the 200 success response, or an uncaught exception (which leaves the store
file unchanged). -/
theorem do_POST_classify (cfg : Config) (mail : MailOutcome) (store : FileContent)
    (req : Request) :
    (req.path ≠ "/subscribe" ∧
      do_POST cfg mail store req =
        (.resp (sendError 404 "Not Found"), store, noEffects)) ∨
    (cfg.token ≠ "" ∧ effectiveToken req ≠ cfg.token ∧
      do_POST cfg mail store req =
        (.resp (sendError 403 "Forbidden"), store, noEffects)) ∨
    (do_POST cfg mail store req =
      (.resp (sendError 400 "Invalid JSON"), store, noEffects)) ∨
    (do_POST cfg mail store req =
      (.resp (sendError 400 "Invalid email"), store, noEffects)) ∨
    (∃ email fc eff,
      do_POST cfg mail store req = (.resp (okResponse cfg mail email), fc, eff)) ∨
    (∃ e eff, do_POST cfg mail store req = (.raised e, store, eff)) := by
  unfold do_POST
  by_cases h1 : req.path ≠ "/subscribe"
  · rw [if_pos h1]
    exact .inl ⟨h1, rfl⟩
  · rw [if_neg h1]
    by_cases h2 : cfg.token ≠ "" ∧ effectiveToken req ≠ cfg.token
    · rw [if_pos h2]
      exact .inr (.inl ⟨h2.1, h2.2, rfl⟩)
    · rw [if_neg h2]
      cases hp : readPayload req with
      | raised e => exact .inr (.inr (.inr (.inr (.inr ⟨e, noEffects, rfl⟩))))
      | badJson => exact .inr (.inr (.inl rfl))
      | ok payload =>
        dsimp only
        cases he : extractEmail payload with
        | error e => exact .inr (.inr (.inr (.inr (.inr ⟨e, noEffects, rfl⟩))))
        | ok email =>
          dsimp only
          by_cases hv : ¬pyHasChar email (Char.ofNat 64) = true ∨
              ¬pyHasChar email (Char.ofNat 46) = true
          · rw [if_pos hv]
            exact .inr (.inr (.inr (.inl rfl)))
          · rw [if_neg hv]
            by_cases hm : containsStr (load_subscribers store) email = true
            · rw [if_pos hm]
              exact .inr (.inr (.inr (.inr (.inl ⟨email, store, ⟨true, false⟩, rfl⟩))))
            · rw [if_neg hm]
              cases hs : save_subscribers (load_subscribers store ++ [.str email]) with
              | error e =>
                exact .inr (.inr (.inr (.inr (.inr ⟨e, ⟨true, false⟩, rfl⟩))))
              | ok newStore =>
                exact .inr (.inr (.inr (.inr (.inl ⟨email, newStore, ⟨true, true⟩, rfl⟩))))

/-- `do_POST` is a function, so two descriptions of the same call agree on
the response. -/
theorem resp_determined {cfg : Config} {mail : MailOutcome} {store : FileContent}
    {req : Request} {r r' : Response} {fc fc' : FileContent} {eff eff' : Effects}
    (heq : do_POST cfg mail store req = (.resp r, fc, eff))
    (hc : do_POST cfg mail store req = (.resp r', fc', eff')) : r = r' := by
  rw [heq] at hc
  simpa using congrArg Prod.fst hc

/-! ### Claims -/

/-- C1, counterexample: the claim fails for a valid email with surrounding
whitespace. `E = " a@b.c "` contains both `@` and `.` after trimming and is
absent from the (empty) store; the POST answers 200, but the handler stores
the trimmed string `"a@b.c"`, so `E` itself appears zero times — not exactly
once — in the backing store afterward. -/
theorem c1_counterexample :
    pyHasChar (pyStrip " a@b.c ") (Char.ofNat 64) = true ∧
    pyHasChar (pyStrip " a@b.c ") (Char.ofNat 46) = true ∧
    storeCount .absent " a@b.c " = 0 ∧
    do_POST ⟨"", none⟩ .sent .absent (subscribeReq "" " a@b.c ") =
      (.resp (okResponse ⟨"", none⟩ .sent "a@b.c"),
        .json (.arr [.str "a@b.c"]), ⟨true, true⟩) ∧
    storeCount (.json (.arr [.str "a@b.c"])) " a@b.c " = 0 := by
  refine ⟨?_, ?_, ?_, ?_, ?_⟩ <;> rfl

/-- C1, amended: for every string `E` whose trimmed form contains both `@`
and `.`, when the backing store holds a JSON array of strings (or is absent
or unreadable) not containing the trimmed form, POSTing
`{"email": E}` to `/subscribe` with the configured token answers 200 and the
trimmed form of `E` appears exactly once in the backing store afterward. -/
theorem c1_subscribe_stores_trimmed_email (cfg : Config) (mail : MailOutcome)
    (store : FileContent) (E : String) (strs : List String)
    (hat : pyHasChar (pyStrip E) (Char.ofNat 64) = true)
    (hdot : pyHasChar (pyStrip E) (Char.ofNat 46) = true)
    (hstore : allStrings (load_subscribers store) = some strs)
    (habs : pyStrip E ∉ strs) :
    do_POST cfg mail store (subscribeReq cfg.token E) =
      (.resp (okResponse cfg mail (pyStrip E)),
        .json (.arr ((pySortedSet (strs ++ [pyStrip E])).map .str)), ⟨true, true⟩) ∧
    (okResponse cfg mail (pyStrip E)).status = 200 ∧
    storeCount (.json (.arr ((pySortedSet (strs ++ [pyStrip E])).map .str)))
      (pyStrip E) = 1 := by
  refine ⟨?_, rfl, storeCount_save (by simp)⟩
  rw [do_POST_success cfg mail store (subscribeReq cfg.token E)
    (.obj [("email", .str E)]) (pyStrip E) strs rfl ?hauth rfl rfl hat hdot hstore]
  · rw [if_neg habs]
  case hauth =>
    intro h
    simp [effectiveToken, subscribeReq, h]

theorem c1_witness :
    do_POST ⟨"", none⟩ .sent .absent (subscribeReq "" "a@b.c") =
      (.resp (okResponse ⟨"", none⟩ .sent (pyStrip "a@b.c")),
        .json (.arr ((pySortedSet ([] ++ [pyStrip "a@b.c"])).map .str)), ⟨true, true⟩) ∧
    (okResponse ⟨"", none⟩ .sent (pyStrip "a@b.c")).status = 200 ∧
    storeCount (.json (.arr ((pySortedSet ([] ++ [pyStrip "a@b.c"])).map .str)))
      (pyStrip "a@b.c") = 1 :=
  c1_subscribe_stores_trimmed_email ⟨"", none⟩ .sent .absent "a@b.c" []
    (by rfl) (by rfl) (by rfl) (by simp)

/-- C2, counterexample: for the whitespace-padded valid email
`E = " a@b.c "`, POSTing `{"email": E}` twice from an empty store does
answer 200 both times, but the store afterward holds the trimmed string
`"a@b.c"`, so it contains zero copies of `E` — not exactly one. -/
theorem c2_counterexample :
    (do_POST ⟨"", none⟩ .sent .absent (subscribeReq "" " a@b.c ")).1 =
      .resp (okResponse ⟨"", none⟩ .sent "a@b.c") ∧
    (do_POST ⟨"", none⟩ .sent
        (do_POST ⟨"", none⟩ .sent .absent (subscribeReq "" " a@b.c ")).2.1
        (subscribeReq "" " a@b.c ")).1 =
      .resp (okResponse ⟨"", none⟩ .sent "a@b.c") ∧
    storeCount
      (do_POST ⟨"", none⟩ .sent
        (do_POST ⟨"", none⟩ .sent .absent (subscribeReq "" " a@b.c ")).2.1
        (subscribeReq "" " a@b.c ")).2.1 " a@b.c " = 0 := by
  refine ⟨?_, ?_, ?_⟩ <;> rfl

/-- C2, amended: submitting the same `{"email": E}` POST twice in sequence,
for `E` whose trimmed form is a valid email, from a well-formed
duplicate-free store, yields a 200 response both times, and afterward the
store contains exactly one copy of the trimmed form of `E`. -/
theorem c2_idempotent_trimmed (cfg : Config) (mail : MailOutcome)
    (store : FileContent) (E : String) (strs : List String)
    (hat : pyHasChar (pyStrip E) (Char.ofNat 64) = true)
    (hdot : pyHasChar (pyStrip E) (Char.ofNat 46) = true)
    (hstore : allStrings (load_subscribers store) = some strs)
    (hnd : strs.Nodup) :
    ∃ fc1 eff1 fc2 eff2,
      do_POST cfg mail store (subscribeReq cfg.token E) =
        (.resp (okResponse cfg mail (pyStrip E)), fc1, eff1) ∧
      do_POST cfg mail fc1 (subscribeReq cfg.token E) =
        (.resp (okResponse cfg mail (pyStrip E)), fc2, eff2) ∧
      (okResponse cfg mail (pyStrip E)).status = 200 ∧
      storeCount fc2 (pyStrip E) = 1 := by
  have hauth : cfg.token ≠ "" → effectiveToken (subscribeReq cfg.token E) = cfg.token := by
    intro h
    simp [effectiveToken, subscribeReq, h]
  by_cases hmem : pyStrip E ∈ strs
  · refine ⟨store, ⟨true, false⟩, store, ⟨true, false⟩, ?_, ?_, rfl,
      storeCount_wf_mem hstore hmem hnd⟩
    · rw [do_POST_success cfg mail store _ (.obj [("email", .str E)]) (pyStrip E) strs
        rfl hauth rfl rfl hat hdot hstore, if_pos hmem]
    · rw [do_POST_success cfg mail store _ (.obj [("email", .str E)]) (pyStrip E) strs
        rfl hauth rfl rfl hat hdot hstore, if_pos hmem]
  · have hstore2 : allStrings (load_subscribers
        (.json (.arr ((pySortedSet (strs ++ [pyStrip E])).map .str)))) =
        some (pySortedSet (strs ++ [pyStrip E])) := by
      simpa [load_subscribers] using allStrings_map_str (pySortedSet (strs ++ [pyStrip E]))
    refine ⟨.json (.arr ((pySortedSet (strs ++ [pyStrip E])).map .str)), ⟨true, true⟩,
      .json (.arr ((pySortedSet (strs ++ [pyStrip E])).map .str)), ⟨true, false⟩,
      ?_, ?_, rfl, storeCount_save (by simp)⟩
    · rw [do_POST_success cfg mail store _ (.obj [("email", .str E)]) (pyStrip E) strs
        rfl hauth rfl rfl hat hdot hstore, if_neg hmem]
    · rw [do_POST_success cfg mail _ _ (.obj [("email", .str E)]) (pyStrip E) _
        rfl hauth rfl rfl hat hdot hstore2,
        if_pos (mem_pySortedSet.mpr (by simp))]

theorem c2_witness :
    ∃ fc1 eff1 fc2 eff2,
      do_POST ⟨"", none⟩ .sent .absent (subscribeReq "" "a@b.c") =
        (.resp (okResponse ⟨"", none⟩ .sent (pyStrip "a@b.c")), fc1, eff1) ∧
      do_POST ⟨"", none⟩ .sent fc1 (subscribeReq "" "a@b.c") =
        (.resp (okResponse ⟨"", none⟩ .sent (pyStrip "a@b.c")), fc2, eff2) ∧
      (okResponse ⟨"", none⟩ .sent (pyStrip "a@b.c")).status = 200 ∧
      storeCount fc2 (pyStrip "a@b.c") = 1 :=
  c2_idempotent_trimmed ⟨"", none⟩ .sent .absent "a@b.c" []
    (by rfl) (by rfl) (by rfl) List.nodup_nil

/-- C3, counterexample: a backing file whose content is the JSON array
`[1]` — an array with a non-string element — is not mapped to the empty
list: `load_subscribers` returns the list `[1]` as is. -/
theorem c3_counterexample :
    load_subscribers (.json (.arr [.num 1])) = [.num 1] ∧
    load_subscribers (.json (.arr [.num 1])) ≠ [] :=
  ⟨rfl, by simp [load_subscribers]⟩

/-- C3, amended: `load()` is total and fail-open for an absent file,
unparseable JSON, and JSON non-array values, returning the empty list; but
a JSON array is returned exactly as parsed, including any non-string
elements it may contain. -/
theorem c3_load_fail_open :
    load_subscribers .absent = [] ∧
    load_subscribers .invalid = [] ∧
    (∀ v : JsonValue, (∀ xs, v ≠ .arr xs) → load_subscribers (.json v) = []) ∧
    (∀ xs, load_subscribers (.json (.arr xs)) = xs) := by
  refine ⟨rfl, rfl, ?_, fun xs => rfl⟩
  intro v hv
  cases v with
  | null => rfl
  | bool b => rfl
  | num n => rfl
  | str s => rfl
  | arr xs => exact absurd rfl (hv xs)
  | obj fs => rfl

theorem c3_witness : load_subscribers (.json .null) = [] :=
  c3_load_fail_open.2.2.1 .null (fun _ h => JsonValue.noConfusion h)

/-- C4: saving any list `L` of email strings and reloading yields exactly the
lexicographically sorted, duplicate-free version of `L`, whose elements are
precisely the elements of `L`. -/
theorem c4_roundtrip (L : List String) :
    ∃ fc, save_subscribers (L.map .str) = .ok fc ∧
      load_subscribers fc = (pySortedSet L).map .str ∧
      (pySortedSet L).Sorted (· ≤ ·) ∧
      (pySortedSet L).Nodup ∧
      (∀ x, x ∈ pySortedSet L ↔ x ∈ L) := by
  refine ⟨.json (.arr ((pySortedSet L).map .str)), ?_, rfl,
    sorted_pySortedSet L, nodup_pySortedSet L, fun _ => mem_pySortedSet⟩
  unfold save_subscribers
  rw [allStrings_map_str]

/-- C5: every rejection leaves the store untouched. A request to the
endpoint that passes route, auth and parsing but whose trimmed email string
lacks `@` or lacks `.` is answered 400 with the store file unchanged and
neither read nor written; and when a token is configured, a request to the
endpoint without a matching token is answered 403 with the store file
unchanged and neither read nor written. -/
theorem c5_rejections_leave_store_untouched (cfg : Config) (mail : MailOutcome)
    (store : FileContent) :
    (∀ req payload email, req.path = "/subscribe" →
      (cfg.token ≠ "" → effectiveToken req = cfg.token) →
      readPayload req = .ok payload →
      extractEmail payload = .ok email →
      (pyHasChar email (Char.ofNat 64) = false ∨
        pyHasChar email (Char.ofNat 46) = false) →
      do_POST cfg mail store req =
        (.resp (sendError 400 "Invalid email"), store, noEffects)) ∧
    (∀ req, cfg.token ≠ "" → req.path = "/subscribe" →
      effectiveToken req ≠ cfg.token →
      do_POST cfg mail store req =
        (.resp (sendError 403 "Forbidden"), store, noEffects)) := by
  constructor
  · intro req payload email hpath hauth hpay hext hval
    unfold do_POST
    rw [if_neg (by simp [hpath])]
    rw [if_neg (fun hc => hc.2 (hauth hc.1))]
    rw [hpay]
    dsimp only
    rw [hext]
    dsimp only
    have hcond : ¬pyHasChar email (Char.ofNat 64) = true ∨
        ¬pyHasChar email (Char.ofNat 46) = true := by
      rcases hval with h | h
      · exact Or.inl (by simp [h])
      · exact Or.inr (by simp [h])
    rw [if_pos hcond]
  · intro req htok hpath hne
    unfold do_POST
    rw [if_neg (by simp [hpath]), if_pos ⟨htok, hne⟩]

theorem c5_witness :
    do_POST ⟨"", none⟩ .sent .absent
      { path := "/subscribe", query := [], xAuthToken := none,
        contentLength := some "1", body := .json (.obj [("email", .str "nodot@")]) } =
      (.resp (sendError 400 "Invalid email"), .absent, noEffects) ∧
    do_POST ⟨"secret", none⟩ .sent .absent
      { path := "/subscribe", query := [], xAuthToken := some "wrong",
        contentLength := some "1", body := .json (.obj [("email", .str "a@b.c")]) } =
      (.resp (sendError 403 "Forbidden"), .absent, noEffects) :=
  ⟨(c5_rejections_leave_store_untouched ⟨"", none⟩ .sent .absent).1 _
      (.obj [("email", .str "nodot@")]) "nodot@" rfl (fun h => absurd rfl h)
      (by rfl) (by rfl) (Or.inr (by rfl)),
    (c5_rejections_leave_store_untouched ⟨"secret", none⟩ .sent .absent).2 _
      (by decide) rfl (by decide)⟩

/-- C6: with a token configured and a request to the endpoint, the compared
token is the `X-Auth-Token` header when non-empty, else the `token` query
parameter; any mismatch under exact string equality is answered 403; a
request supplying no token at all is answered 403; and when the token
matches, the handler never answers 403. -/
theorem c6_token_auth (cfg : Config) (mail : MailOutcome) (store : FileContent)
    (req : Request) (htok : cfg.token ≠ "") (hpath : req.path = "/subscribe") :
    (req.xAuthToken.getD "" ≠ "" → effectiveToken req = req.xAuthToken.getD "") ∧
    (req.xAuthToken.getD "" = "" → effectiveToken req = queryToken req.query) ∧
    (effectiveToken req ≠ cfg.token →
      do_POST cfg mail store req =
        (.resp (sendError 403 "Forbidden"), store, noEffects)) ∧
    (req.xAuthToken = none → queryToken req.query = "" →
      do_POST cfg mail store req =
        (.resp (sendError 403 "Forbidden"), store, noEffects)) ∧
    (effectiveToken req = cfg.token →
      ∀ r fc eff, do_POST cfg mail store req = (.resp r, fc, eff) →
        r.status ≠ 403) := by
  refine ⟨?_, ?_, ?_, ?_, ?_⟩
  · intro h
    simp only [effectiveToken, if_neg h]
  · intro h
    simp only [effectiveToken, if_pos h]
  · intro hne
    unfold do_POST
    rw [if_neg (by simp [hpath]), if_pos ⟨htok, hne⟩]
  · intro hh hq
    have heff : effectiveToken req = "" := by
      simp [effectiveToken, hh, hq]
    unfold do_POST
    rw [if_neg (by simp [hpath]),
      if_pos ⟨htok, by rw [heff]; exact Ne.symm htok⟩]
  · intro hmatch r fc eff heq h403
    rcases do_POST_classify cfg mail store req with
      ⟨hp, _⟩ | ⟨_, hne, _⟩ | hc | hc | ⟨em, fc2, ef2, hc⟩ | ⟨e, ef2, hc⟩
    · exact hp hpath
    · exact hne hmatch
    · rw [resp_determined heq hc] at h403
      simp [sendError] at h403
    · rw [resp_determined heq hc] at h403
      simp [sendError] at h403
    · rw [resp_determined heq hc] at h403
      simp [okResponse] at h403
    · rw [heq] at hc
      simpa using congrArg Prod.fst hc

theorem c6_witness :
    do_POST ⟨"secret", none⟩ .sent .absent
      { path := "/subscribe", query := [], xAuthToken := some "wrong",
        contentLength := some "1", body := .json (.obj [("email", .str "a@b.c")]) } =
      (.resp (sendError 403 "Forbidden"), .absent, noEffects) :=
  (c6_token_auth ⟨"secret", none⟩ .sent .absent
    { path := "/subscribe", query := [], xAuthToken := some "wrong",
      contentLength := some "1", body := .json (.obj [("email", .str "a@b.c")]) }
    (by decide) rfl).2.2.1 (by decide)

/-- C7: when the notifier is configured and its send raises, a request that
passes route, auth, parse and validation (over a well-formed store) is still
answered 200 with `welcome_sent` reported as `false`; and the mail outcome
never influences the store state or the store accesses. -/
theorem c7_mail_failure_best_effort (cfg : Config) (store : FileContent)
    (req : Request) (payload : JsonValue) (email : String) (strs : List String)
    (sc : SmtpConfig) (hsmtp : cfg.smtpConfig = some sc)
    (hpath : req.path = "/subscribe")
    (hauth : cfg.token ≠ "" → effectiveToken req = cfg.token)
    (hpay : readPayload req = .ok payload)
    (hext : extractEmail payload = .ok email)
    (hat : pyHasChar email (Char.ofNat 64) = true)
    (hdot : pyHasChar email (Char.ofNat 46) = true)
    (hstore : allStrings (load_subscribers store) = some strs) :
    (∃ fc eff, do_POST cfg .raised store req =
      (.resp ⟨200, "application/json",
        .jsonBody (.obj [("status", .str "ok"), ("email", .str email),
          ("welcome_sent", .bool false)])⟩, fc, eff)) ∧
    (do_POST cfg .raised store req).2 = (do_POST cfg .sent store req).2 := by
  constructor
  · have hok : okResponse cfg .raised email =
        ⟨200, "application/json",
          .jsonBody (.obj [("status", .str "ok"), ("email", .str email),
            ("welcome_sent", .bool false)])⟩ := by
      simp [okResponse, welcomeSent, hsmtp]
    rw [do_POST_success cfg .raised store req payload email strs
      hpath hauth hpay hext hat hdot hstore]
    by_cases hmem : email ∈ strs
    · rw [if_pos hmem]
      exact ⟨store, ⟨true, false⟩, by rw [hok]⟩
    · rw [if_neg hmem]
      exact ⟨_, ⟨true, true⟩, by rw [hok]⟩
  · exact mail_frame cfg .raised .sent store req

theorem c7_witness :
    ∃ fc eff, do_POST ⟨"", some ⟨"smtp.gmail.com", 587, "u", "p", "f@g.h", "s", "b"⟩⟩
        .raised .absent (subscribeReq "" "a@b.c") =
      (.resp ⟨200, "application/json",
        .jsonBody (.obj [("status", .str "ok"), ("email", .str "a@b.c"),
          ("welcome_sent", .bool false)])⟩, fc, eff) :=
  (c7_mail_failure_best_effort ⟨"", some ⟨"smtp.gmail.com", 587, "u", "p", "f@g.h", "s", "b"⟩⟩
    .absent (subscribeReq "" "a@b.c") (.obj [("email", .str "a@b.c")]) "a@b.c" []
    ⟨"smtp.gmail.com", 587, "u", "p", "f@g.h", "s", "b"⟩ rfl rfl
    (fun h => absurd rfl h) (by rfl) (by rfl) (by rfl) (by rfl) (by rfl)).1

/-- C8, counterexample: a rejected request (invalid email) is answered by
`send_error`, whose body is the default HTML error page with content type
`text/html;charset=utf-8` — not a JSON object of the form
`\x7b"status":"error", ...\x7d`. -/
theorem c8_counterexample :
    do_POST ⟨"", none⟩ .sent .absent
      { path := "/subscribe", query := [], xAuthToken := none,
        contentLength := some "1", body := .json (.obj [("email", .str "x")]) } =
      (.resp (sendError 400 "Invalid email"), .absent, noEffects) ∧
    (sendError 400 "Invalid email").contentType ≠ "application/json" ∧
    ∀ v, (sendError 400 "Invalid email").body ≠ .jsonBody v := by
  refine ⟨by rfl, by decide, ?_⟩
  intro v h
  exact RespBody.noConfusion h

/-- C8, amended: every rejection carries a non-2xx status code (400, 403 or
404 as appropriate) and the `send_error` HTML error page as its body; the
only JSON response body is the 200 success response. -/
theorem c8_rejections_are_html_errors (cfg : Config) (mail : MailOutcome)
    (store : FileContent) (req : Request) (r : Response) (fc : FileContent)
    (eff : Effects) (heq : do_POST cfg mail store req = (.resp r, fc, eff)) :
    (∃ email, r = okResponse cfg mail email ∧ r.status = 200) ∨
    ((r.status = 400 ∨ r.status = 403 ∨ r.status = 404) ∧
      ∃ m, r.body = .htmlError r.status m ∧
        r.contentType = "text/html;charset=utf-8") := by
  rcases do_POST_classify cfg mail store req with
    ⟨_, hc⟩ | ⟨_, _, hc⟩ | hc | hc | ⟨em, fc2, ef2, hc⟩ | ⟨e, ef2, hc⟩
  · right
    rw [resp_determined heq hc]
    exact ⟨Or.inr (Or.inr rfl), "Not Found", rfl, rfl⟩
  · right
    rw [resp_determined heq hc]
    exact ⟨Or.inr (Or.inl rfl), "Forbidden", rfl, rfl⟩
  · right
    rw [resp_determined heq hc]
    exact ⟨Or.inl rfl, "Invalid JSON", rfl, rfl⟩
  · right
    rw [resp_determined heq hc]
    exact ⟨Or.inl rfl, "Invalid email", rfl, rfl⟩
  · left
    exact ⟨em, resp_determined heq hc, by rw [resp_determined heq hc]; rfl⟩
  · rw [heq] at hc
    exact absurd (congrArg Prod.fst hc) (by simp)

theorem c8_witness :
    (∃ email, sendError 400 "Invalid email" = okResponse ⟨"", none⟩ .sent email ∧
      (sendError 400 "Invalid email").status = 200) ∨
    (((sendError 400 "Invalid email").status = 400 ∨
      (sendError 400 "Invalid email").status = 403 ∨
      (sendError 400 "Invalid email").status = 404) ∧
      ∃ m, (sendError 400 "Invalid email").body =
          .htmlError (sendError 400 "Invalid email").status m ∧
        (sendError 400 "Invalid email").contentType = "text/html;charset=utf-8") :=
  c8_rejections_are_html_errors ⟨"", none⟩ .sent .absent
    { path := "/subscribe", query := [], xAuthToken := none,
      contentLength := some "1", body := .json (.obj [("email", .str "x")]) }
    (sendError 400 "Invalid email") .absent noEffects (by rfl)

/-- C9, counterexample: the handler is not total. A request whose
`Content-Length` header is `"abc"` makes `int(...)` raise an uncaught
`ValueError`, so `do_POST` produces no HTTP response for this input
(the surrounding server machinery catches it and the process survives, but
the claim that every request yields a response without an uncaught error is
false). -/
theorem c9_counterexample :
    do_POST ⟨"", none⟩ .sent .absent
      { path := "/subscribe", query := [], xAuthToken := none,
        contentLength := some "abc", body := .empty } =
      (.raised .valueError, .absent, noEffects) ∧
    ∀ r fc eff, do_POST ⟨"", none⟩ .sent .absent
      { path := "/subscribe", query := [], xAuthToken := none,
        contentLength := some "abc", body := .empty } ≠ (.resp r, fc, eff) := by
  have h0 : do_POST ⟨"", none⟩ .sent .absent
      { path := "/subscribe", query := [], xAuthToken := none,
        contentLength := some "abc", body := .empty } =
      (.raised .valueError, .absent, noEffects) := by rfl
  refine ⟨h0, ?_⟩
  intro r fc eff h
  rw [h0] at h
  exact Outcome.noConfusion (congrArg Prod.fst h)

/-- C9, amended: for every request whose `Content-Length` value parses as an
integer and whose body neither fails UTF-8 decoding nor parses to a JSON
non-object, over a well-formed store, the handler produces some HTTP
response; outside those conditions `do_POST` raises an uncaught exception
(`ValueError`, `UnicodeDecodeError` or `AttributeError`) and sends nothing,
though the serving loop keeps the process alive. -/
theorem c9_handler_total_when_decodable (cfg : Config) (mail : MailOutcome)
    (store : FileContent) (req : Request) (strs : List String)
    (hcl : ∀ e, readPayload req ≠ .raised e)
    (hobj : ∀ v, readPayload req = .ok v → ∃ fs, v = .obj fs)
    (hstore : allStrings (load_subscribers store) = some strs) :
    ∃ r fc eff, do_POST cfg mail store req = (.resp r, fc, eff) := by
  unfold do_POST
  by_cases h1 : req.path ≠ "/subscribe"
  · rw [if_pos h1]
    exact ⟨_, _, _, rfl⟩
  · rw [if_neg h1]
    by_cases h2 : cfg.token ≠ "" ∧ effectiveToken req ≠ cfg.token
    · rw [if_pos h2]
      exact ⟨_, _, _, rfl⟩
    · rw [if_neg h2]
      cases hp : readPayload req with
      | raised e => exact absurd hp (hcl e)
      | badJson => exact ⟨_, _, _, rfl⟩
      | ok payload =>
        obtain ⟨fs, rfl⟩ := hobj payload hp
        dsimp only
        rw [show extractEmail (JsonValue.obj fs) =
          Except.ok (pyStrip (pyStr ((dictGet fs "email").getD (.str "")))) from rfl]
        dsimp only
        by_cases hv : ¬pyHasChar (pyStrip (pyStr ((dictGet fs "email").getD (.str ""))))
            (Char.ofNat 64) = true ∨
          ¬pyHasChar (pyStrip (pyStr ((dictGet fs "email").getD (.str ""))))
            (Char.ofNat 46) = true
        · rw [if_pos hv]
          exact ⟨_, _, _, rfl⟩
        · rw [if_neg hv]
          by_cases hm : containsStr (load_subscribers store)
              (pyStrip (pyStr ((dictGet fs "email").getD (.str "")))) = true
          · rw [if_pos hm]
            exact ⟨_, _, _, rfl⟩
          · rw [if_neg hm]
            rw [show save_subscribers (load_subscribers store ++
                [.str (pyStrip (pyStr ((dictGet fs "email").getD (.str ""))))]) =
              .ok (.json (.arr ((pySortedSet (strs ++
                [pyStrip (pyStr ((dictGet fs "email").getD (.str "")))])).map .str))) from by
              unfold save_subscribers
              rw [allStrings_append_str hstore]]
            exact ⟨_, _, _, rfl⟩

theorem c9_witness :
    ∃ r fc eff, do_POST ⟨"", none⟩ .sent .absent (subscribeReq "" "a@b.c") =
      (.resp r, fc, eff) :=
  c9_handler_total_when_decodable ⟨"", none⟩ .sent .absent (subscribeReq "" "a@b.c") []
    (fun e h => by
      rw [show readPayload (subscribeReq "" "a@b.c") =
        .ok (.obj [("email", .str "a@b.c")]) from rfl] at h
      exact PayloadOutcome.noConfusion h)
    (fun v h => by
      rw [show readPayload (subscribeReq "" "a@b.c") =
        .ok (.obj [("email", .str "a@b.c")]) from rfl] at h
      injection h with h2
      exact ⟨_, h2.symm⟩)
    (by rfl)

/-- C10: with a token configured, a present-but-empty `X-Auth-Token` header
is treated exactly like an absent header: the handler behaves identically on
the two requests, the compared token is the `token` query parameter (never
the empty header value), and a matching query token authorizes the request
(no 403). -/
theorem c10_empty_header_falls_back (cfg : Config) (mail : MailOutcome)
    (store : FileContent) (p : String) (q : List (String × List String))
    (cl : Option String) (b : RawBody) (htok : cfg.token ≠ "") :
    do_POST cfg mail store ⟨p, q, some "", cl, b⟩ =
      do_POST cfg mail store ⟨p, q, none, cl, b⟩ ∧
    effectiveToken ⟨p, q, some "", cl, b⟩ = queryToken q ∧
    (queryToken q = cfg.token → ∀ r fc eff,
      do_POST cfg mail store ⟨p, q, some "", cl, b⟩ = (.resp r, fc, eff) →
      r.status ≠ 403) := by
  refine ⟨by rfl, rfl, ?_⟩
  intro hq r fc eff heq h403
  rcases do_POST_classify cfg mail store ⟨p, q, some "", cl, b⟩ with
    ⟨_, hc⟩ | ⟨_, hne, _⟩ | hc | hc | ⟨em, fc2, ef2, hc⟩ | ⟨e, ef2, hc⟩
  · rw [resp_determined heq hc] at h403
    simp [sendError] at h403
  · exact hne (by
      rw [show effectiveToken ⟨p, q, some "", cl, b⟩ = queryToken q from rfl]
      exact hq)
  · rw [resp_determined heq hc] at h403
    simp [sendError] at h403
  · rw [resp_determined heq hc] at h403
    simp [sendError] at h403
  · rw [resp_determined heq hc] at h403
    simp [okResponse] at h403
  · rw [heq] at hc
    exact absurd (congrArg Prod.fst hc) (by simp)

theorem c10_witness :
    do_POST ⟨"secret", none⟩ .sent .absent
      ⟨"/subscribe", [("token", ["secret"])], some "", some "1",
        .json (.obj [("email", .str "a@b.c")])⟩ =
      do_POST ⟨"secret", none⟩ .sent .absent
        ⟨"/subscribe", [("token", ["secret"])], none, some "1",
          .json (.obj [("email", .str "a@b.c")])⟩ :=
  (c10_empty_header_falls_back ⟨"secret", none⟩ .sent .absent "/subscribe"
    [("token", ["secret"])] (some "1") (.json (.obj [("email", .str "a@b.c")]))
    (by decide)).1

end SubscriberServer
